import Mathlib

/-!
Verification development for the Med_RAG repository.

Shallow embedding of the agentic workflow controller (rag_agent.py), the
multi-provider generation layer with ordered fallback (llm_manager.py) and
the session coordinator (system_manager.py).  External collaborators
(vector similarity search, concrete LLM backends) are modelled as explicit
function parameters: a backend maps a prompt to an optional completion,
where none stands for a raised exception in the Python source.

The configured confidence threshold (Config.CONFIDENCE_THRESHOLD, defined
in config.py which only the core modules read) is threaded through the
embedding as an explicit rational parameter.
-/

namespace MedRAG

/-! ## Generation layer: llm_manager.py -/

/-- A provider backend: a prompt maps to some completion on success, or to
none when the underlying invoke call raises. -/
abbrev LLMFun := String → Option String

/-- Result dictionary returned by LLMManager.generate_response. -/
structure GenResult where
  success : Bool
  response : String := ""
  provider : String := ""
  error : String := ""
deriving DecidableEq, Repr

/-- The three provider slots of LLMManager after initialize_llms: each is
some backend when the provider is configured, none otherwise. -/
structure LLMMgr where
  google : Option LLMFun
  openai : Option LLMFun
  ollama : Option LLMFun

/-- Pair a provider slot with its name. -/
def named (name : String) (o : Option LLMFun) : Option (String × LLMFun) :=
  o.map (fun f => (name, f))

/-- Embeds the construction-time default: current_llm = google_llm or
openai_llm or ollama_llm (llm_manager.py line 58), keeping the name of the
slot that won. -/
def currentLLMNamed (m : LLMMgr) : Option (String × LLMFun) :=
  (named "google" m.google).orElse
    (fun _ => (named "openai" m.openai).orElse (fun _ => named "ollama" m.ollama))

/-- Embeds LLMManager.get_llm (llm_manager.py lines 65-75), additionally
remembering the name of the provider the selector resolved to. -/
def resolve (m : LLMMgr) (provider : String) : Option (String × LLMFun) :=
  if provider = "google" ∧ m.google.isSome then named "google" m.google
  else if provider = "openai" ∧ m.openai.isSome then named "openai" m.openai
  else if provider = "ollama" ∧ m.ollama.isSome then named "ollama" m.ollama
  else if provider = "auto" then currentLLMNamed m
  else none

/-- LLMManager.get_llm proper: the backend without the name tag. -/
def getLLM (m : LLMMgr) (provider : String) : Option LLMFun :=
  (resolve m provider).map Prod.snd

/-- One conditional append step of the fallback list construction. -/
def optToList (name : String) (o : Option LLMFun) : List (String × LLMFun) :=
  match o with
  | some f => [(name, f)]
  | none => []

/-- Embeds the fallback_providers list built in LLMManager.generate_response
(llm_manager.py lines 96-102): all configured providers in the fixed order
google, openai, ollama, skipping a slot only when its name equals the
provider argument. -/
def fallbacksFor (m : LLMMgr) (provider : String) : List (String × LLMFun) :=
  (if provider = "google" then [] else optToList "google" m.google)
    ++ (if provider = "openai" then [] else optToList "openai" m.openai)
    ++ (if provider = "ollama" then [] else optToList "ollama" m.ollama)

/-- Embeds the fallback loop of LLMManager.generate_response (lines
104-117): walk the fallback list, return the first success tagged
fallback-name, or the aggregate failure when every attempt fails.  The
second component instruments the call with the list of provider names
actually invoked, in order. -/
def tryFallbacks (prompt : String) : List (String × LLMFun) → GenResult × List String
  | [] => ({ success := false, error := "All LLM providers failed" }, [])
  | (name, f) :: rest =>
    match f prompt with
    | some text =>
      ({ success := true, response := text, provider := "fallback-" ++ name }, [name])
    | none =>
      let r := tryFallbacks prompt rest
      (r.1, name :: r.2)

/-- Embeds LLMManager.generate_response (llm_manager.py lines 77-121),
instrumented with the ordered list of provider names invoked during the
call.  The catch-all for faults outside the provider invocations is not
modelled: every operation of the embedding is total. -/
def generateResponseT (m : LLMMgr) (prompt : String) (provider : String) :
    GenResult × List String :=
  match resolve m provider with
  | none => ({ success := false, error := "No LLM available" }, [])
  | some (name, llm) =>
    match llm prompt with
    | some text =>
      ({ success := true, response := text,
         provider := if provider = "auto" then "auto-selected" else provider }, [name])
    | none =>
      let r := tryFallbacks prompt (fallbacksFor m provider)
      (r.1, name :: r.2)

/-- LLMManager.generate_response: the returned result dictionary. -/
def generateResponse (m : LLMMgr) (prompt : String) (provider : String) : GenResult :=
  (generateResponseT m prompt provider).1

/-- The ordered list of provider names invoked by one generate_response
call. -/
def attemptsList (m : LLMMgr) (prompt : String) (provider : String) : List String :=
  (generateResponseT m prompt provider).2

/-- The grounded-answer prompt template of
LLMManager.generate_medical_response (llm_manager.py lines 125-138). -/
def medicalPrompt (query context : String) : String :=
  "You are a medical AI assistant. Please provide a comprehensive, accurate, and evidence-based response to the following medical query.\n\nQuery: "
    ++ query
    ++ "\n\nContext from medical documents:\n"
    ++ context
    ++ "\n\nPlease provide a detailed response that:\n1. Directly addresses the query\n2. References specific information from the provided context\n3. Maintains medical accuracy and professionalism\n4. Includes relevant source citations where possible\n\nResponse:"

/-- Embeds LLMManager.generate_medical_response. -/
def generateMedicalResponse (m : LLMMgr) (query context : String) : GenResult :=
  generateResponse m (medicalPrompt query context) "auto"

/-- The quality-evaluation prompt template of
LLMManager.evaluate_response_quality (llm_manager.py lines 144-158). -/
def evaluationPrompt (query response context : String) : String :=
  "Evaluate the quality of this medical AI response:\n\nQuery: "
    ++ query
    ++ "\n\nResponse: "
    ++ response
    ++ "\n\nContext used: "
    ++ context
    ++ "\n\nRate the response on:\n1. Relevance to the query (0-10)\n2. Accuracy of medical information (0-10)\n3. Use of provided context (0-10)\n4. Overall helpfulness (0-10)\n\nProvide a brief assessment and overall score (0-10):"

/-- Result dictionary of LLMManager.evaluate_response_quality: on success
the free-text assessment is stored under the evaluation key, on failure
the generate_response failure dictionary is passed through. -/
structure QualResult where
  success : Bool
  evaluation : String := ""
  error : String := ""
deriving DecidableEq, Repr

/-- Embeds LLMManager.evaluate_response_quality (lines 142-166). -/
def evaluateResponseQuality (m : LLMMgr) (query response context : String) : QualResult :=
  let r := generateResponse m (evaluationPrompt query response context) "auto"
  if r.success then { success := true, evaluation := r.response }
  else { success := false, error := r.error }

/-! ## Substring matching, embedding the Python in operator on strings -/

/-- Boolean test: does the character list contain pat as a contiguous
sublist. -/
def subOccurs (pat : List Char) : List Char → Bool
  | [] => pat.isEmpty
  | c :: rest => pat.isPrefixOf (c :: rest) || subOccurs pat rest

/-- Embeds the Python membership test pat in s on strings. -/
def containsSub (s pat : String) : Bool :=
  subOccurs pat.data s.data

/-- Embeds the Python str.lower() call, character by character. -/
def pyLower (s : String) : String :=
  String.mk (s.data.map Char.toLower)

/-! ## Workflow data model: rag_agent.py -/

/-- A retrieved langchain Document: page_content plus the two metadata
entries the agent reads (source and chunk_id), each possibly absent. -/
structure Doc where
  page_content : String
  source : Option String := none
  chunk_id : Option Nat := none
deriving DecidableEq, Repr

/-- The evaluation dictionary of AgentState: the two keys the agent ever
writes or reads. -/
structure EvalNotes where
  query_analysis : Option String := none
  quality_assessment : Option String := none
deriving DecidableEq, Repr

/-- Embeds the pydantic AgentState model (rag_agent.py lines 13-24).
Confidence is carried as a rational; its default is the 0.0 of the
source. -/
structure AgentState where
  query : String
  retrieved_documents : List Doc := []
  context : String := ""
  response : String := ""
  confidence : ℚ := 0
  sources : List String := []
  evaluation : EvalNotes := {}
  error : String := ""
  step : String := "start"
  improvement_count : Nat := 0
deriving DecidableEq, Repr

/-- The initial state built by RAGAgent.process_query. -/
def initState (q : String) : AgentState := { query := q }

/-- The external collaborators of the agent: the similarity-search oracle
of VectorStore and the provider slots of the shared LLMManager. -/
structure AgentEnv where
  retrieve : String → List Doc
  mgr : LLMMgr

/-- One context block per retrieved document (rag_agent.py line 87). -/
def contextPart (d : Doc) : String :=
  "Source: " ++ d.source.getD "unknown" ++ " (Chunk "
    ++ (match d.chunk_id with | some i => toString i | none => "unknown")
    ++ ")\n" ++ d.page_content ++ "\n"

/-- Embeds RAGAgent._retrieve_documents (rag_agent.py lines 66-96). -/
def retrieveStage (env : AgentEnv) (s : AgentState) : AgentState :=
  let s := { s with step := "retrieve" }
  let documents := env.retrieve s.query
  if documents = [] then { s with error := "No relevant documents found" }
  else
    { s with
      retrieved_documents := documents,
      sources := documents.map (fun d => d.source.getD "unknown"),
      context := String.intercalate "\n" (documents.map contextPart) }

/-- The analysis prompt of RAGAgent._analyze_query (lines 105-115). -/
def analysisPrompt (s : AgentState) : String :=
  "Analyze this medical query and determine:\n1. Query type (factual, analytical, comparative, etc.)\n2. Required information depth\n3. Potential challenges or ambiguities\n4. Recommended approach for response generation\n\nQuery: "
    ++ s.query
    ++ "\n\nContext available: "
    ++ toString s.retrieved_documents.length
    ++ " document chunks\n\nProvide a brief analysis:"

/-- Embeds RAGAgent._analyze_query (rag_agent.py lines 98-130). -/
def analyzeStage (env : AgentEnv) (s : AgentState) : AgentState :=
  let s := { s with step := "analyze" }
  let r := generateResponse env.mgr (analysisPrompt s) "auto"
  if r.success then
    { s with evaluation := { s.evaluation with query_analysis := some r.response } }
  else s

/-- Embeds RAGAgent._generate_response (rag_agent.py lines 132-160). -/
def generateStage (env : AgentEnv) (s : AgentState) : AgentState :=
  let s := { s with step := "generate" }
  if s.context = "" then
    { s with error := "No context available for response generation" }
  else
    let r := generateMedicalResponse env.mgr s.query s.context
    if r.success then { s with response := r.response, confidence := 0.8 }
    else { s with error := "Response generation failed: " ++ r.error }

/-- Embeds RAGAgent._evaluate_response (rag_agent.py lines 162-203),
including the ordered keyword-matching confidence policy of lines
184-191. -/
def evaluateStage (env : AgentEnv) (s : AgentState) : AgentState :=
  let s := { s with step := "evaluate" }
  if s.response = "" then { s with error := "No response to evaluate" }
  else
    let r := evaluateResponseQuality env.mgr s.query s.response s.context
    if r.success then
      { s with
        evaluation := { s.evaluation with quality_assessment := some r.evaluation },
        confidence :=
          if containsSub (pyLower r.evaluation) "confidence" then 0.9
          else if containsSub (pyLower r.evaluation) "good" then 0.8
          else if containsSub (pyLower r.evaluation) "adequate" then 0.6
          else 0.5 }
    else { s with confidence := 0.5 }

/-- The improvement prompt of RAGAgent._improve_response (lines 226-237),
with the dictionary default for a missing quality assessment. -/
def improvementPrompt (s : AgentState) : String :=
  "The previous response to this query received a low confidence score.\nPlease improve the response by addressing any identified issues.\n\nOriginal Query: "
    ++ s.query
    ++ "\n\nPrevious Response: "
    ++ s.response
    ++ "\n\nEvaluation Feedback: "
    ++ s.evaluation.quality_assessment.getD "No specific feedback available"
    ++ "\n\nContext: "
    ++ s.context
    ++ "\n\nPlease provide an improved, more accurate, and comprehensive response:"

/-- Embeds RAGAgent._improve_response (rag_agent.py lines 220-252). -/
def improveStage (env : AgentEnv) (s : AgentState) : AgentState :=
  let s := { s with step := "improve" }
  let r := generateResponse env.mgr (improvementPrompt s) "auto"
  if r.success then
    { s with response := r.response, confidence := min 0.95 (s.confidence + 0.1) }
  else s

/-- Embeds RAGAgent._should_improve (rag_agent.py lines 205-218): the
route string together with the state as left by the in-place counter
increment.  thr is the configured Config.CONFIDENCE_THRESHOLD. -/
def shouldImprove (thr : ℚ) (s : AgentState) : String × AgentState :=
  if s.improvement_count ≥ 3 then ("end", s)
  else if s.confidence < thr then
    ("improve", { s with improvement_count := s.improvement_count + 1 })
  else ("end", s)

/-- The node currently about to run in the compiled workflow graph, with
done standing for the END node. -/
inductive Stage
  | retrieve
  | analyze
  | generate
  | evaluate
  | improve
  | done
deriving DecidableEq, Repr

/-- One transition of the compiled workflow graph of
RAGAgent._build_workflow (rag_agent.py lines 34-64): run the node of the
current stage, then follow its (possibly conditional) outgoing edge.
Returns none exactly at the END node. -/
def stepF (env : AgentEnv) (thr : ℚ) : Stage × AgentState → Option (Stage × AgentState)
  | (Stage.retrieve, s) => some (Stage.analyze, retrieveStage env s)
  | (Stage.analyze, s) => some (Stage.generate, analyzeStage env s)
  | (Stage.generate, s) => some (Stage.evaluate, generateStage env s)
  | (Stage.evaluate, s) =>
    let r := shouldImprove thr (evaluateStage env s)
    if r.1 = "improve" then some (Stage.improve, r.2) else some (Stage.done, r.2)
  | (Stage.improve, s) => some (Stage.evaluate, improveStage env s)
  | (Stage.done, _) => none

/-- Iterate the workflow transition at most fuel times, stopping at the
END node. -/
def runFrom (env : AgentEnv) (thr : ℚ) : Nat → Stage × AgentState → Stage × AgentState
  | 0, c => c
  | n + 1, c =>
    match stepF env thr c with
    | none => c
    | some c2 => runFrom env thr n c2

/-- The result dictionary assembled by RAGAgent.process_query and also the
envelope returned by SystemManager.process_query; fields absent from a
given dictionary are none. -/
structure QueryResult where
  success : Bool
  query : Option String := none
  response : Option String := none
  confidence : ℚ := 0
  sources : List String := []
  evaluation : EvalNotes := {}
  workflow_steps : Option String := none
  error : Option String := none
  message : Option String := none
deriving DecidableEq, Repr

/-- Embeds RAGAgent.process_query (rag_agent.py lines 254-307): run the
workflow from the retrieve entry point (11 transitions always reach the
END node, see the termination theorem) and assemble the result.  The
response field reproduces the Python or-chain: an empty response string is
falsy, and the answer and output keys are absent, so it collapses to
none. -/
def ragProcessQuery (env : AgentEnv) (thr : ℚ) (q : String) : QueryResult :=
  let fin := (runFrom env thr 11 (Stage.retrieve, initState q)).2
  { success := true
    query := some q
    response := if fin.response = "" then none else some fin.response
    confidence := fin.confidence
    sources := fin.sources
    evaluation := fin.evaluation
    workflow_steps := some fin.step
    error := some fin.error }

/-! ## Session coordinator: system_manager.py -/

/-- Embeds SystemManager.process_query (system_manager.py lines 100-121).
The agent collaborator is passed explicitly; the second component counts
how many times it was invoked. -/
def smProcessQuery (isInitialized : Bool) (agent : String → QueryResult)
    (q : String) : QueryResult × Nat :=
  if isInitialized then (agent q, 1)
  else
    ({ success := false,
       error := some "System not initialized",
       message := some "Please initialize the system first" }, 0)

/-! ## Specification-side definitions (from the words of the spec, for
refinement statements) -/

/-- Spec wording, section 4.2 evaluate: first-match-wins keyword policy
mapping the free-text assessment to a confidence score. -/
def keywordConfidencePolicy (assessment : String) : ℚ :=
  if containsSub (pyLower assessment) "confidence" then 0.9
  else if containsSub (pyLower assessment) "good" then 0.8
  else if containsSub (pyLower assessment) "adequate" then 0.6
  else 0.5

/-- Spec wording, section 4.1: the auto selector resolves to the first
available provider in the fixed priority order google, openai, ollama. -/
def autoResolveSpec (m : LLMMgr) : Option (String × LLMFun) :=
  if m.google.isSome then named "google" m.google
  else if m.openai.isSome then named "openai" m.openai
  else if m.ollama.isSome then named "ollama" m.ollama
  else none

/-- All configured providers in the fixed priority order, with names. -/
def configuredProviders (m : LLMMgr) : List (String × LLMFun) :=
  optToList "google" m.google ++ optToList "openai" m.openai ++ optToList "ollama" m.ollama

/-! ## Concrete collaborators used to instantiate theorems -/

/-- Backend whose invoke call always raises. -/
def alwaysFail : LLMFun := fun _ => none

/-- Backend that always answers with the fixed text ok. -/
def alwaysOk : LLMFun := fun _ => some "ok"

/-- Backend that always answers with the fixed text good. -/
def alwaysGood : LLMFun := fun _ => some "good"

/-- Manager with only google configured, and google always failing. -/
def mgrOnlyGoogle : LLMMgr := ⟨some alwaysFail, none, none⟩

/-- Manager with google configured but failing and openai succeeding. -/
def mgrMixed : LLMMgr := ⟨some alwaysFail, some alwaysOk, none⟩

/-- Manager with no provider configured at all. -/
def mgrNone : LLMMgr := ⟨none, none, none⟩

/-- Environment with an empty corpus and no configured provider. -/
def envNoProviders : AgentEnv := ⟨fun _ => [], mgrNone⟩

/-- Environment with an empty corpus and one provider answering ok. -/
def envOk : AgentEnv := ⟨fun _ => [], ⟨some alwaysOk, none, none⟩⟩

/-- Environment with an empty corpus and one provider answering good. -/
def envGood : AgentEnv := ⟨fun _ => [], ⟨some alwaysGood, none, none⟩⟩

/-! ## Helper lemmas: fallback loop -/

theorem tryFallbacks_all_fail (prompt : String) (l : List (String × LLMFun))
    (h : ∀ x ∈ l, x.2 prompt = none) :
    tryFallbacks prompt l =
      ({ success := false, error := "All LLM providers failed" }, l.map Prod.fst) := by
  induction l with
  | nil => rfl
  | cons a rest ih =>
    obtain ⟨name, f⟩ := a
    have hf : f prompt = none := h (name, f) (List.mem_cons_self _ _)
    have ih2 := ih (fun x hx => h x (List.mem_cons_of_mem _ hx))
    simp [tryFallbacks, hf, ih2]

theorem tryFallbacks_first_success (prompt : String) (pre post : List (String × LLMFun))
    (name : String) (f : LLMFun) (t : String)
    (hpre : ∀ x ∈ pre, x.2 prompt = none) (hf : f prompt = some t) :
    (tryFallbacks prompt (pre ++ (name, f) :: post)).1 =
      { success := true, response := t, provider := "fallback-" ++ name } := by
  induction pre with
  | nil => simp [tryFallbacks, hf]
  | cons a rest ih =>
    obtain ⟨n1, f1⟩ := a
    have h1 : f1 prompt = none := hpre (n1, f1) (List.mem_cons_self _ _)
    have ih2 := ih (fun x hx => hpre x (List.mem_cons_of_mem _ hx))
    simp [tryFallbacks, h1, ih2]

theorem tryFallbacks_fail_forall (prompt : String) (l : List (String × LLMFun))
    (h : ((tryFallbacks prompt l).1).success = false) :
    ∀ x ∈ l, x.2 prompt = none := by
  induction l with
  | nil => intro x hx; cases hx
  | cons a rest ih =>
    obtain ⟨name, f⟩ := a
    intro x hx
    cases hf : f prompt with
    | some t => simp [tryFallbacks, hf] at h
    | none =>
      rcases List.mem_cons.mp hx with hx1 | hx2
      · subst hx1; exact hf
      · exact ih (by simpa [tryFallbacks, hf] using h) x hx2

theorem tryFallbacks_trace_isPrefix (prompt : String) (l : List (String × LLMFun)) :
    List.IsPrefix ((tryFallbacks prompt l).2) (l.map Prod.fst) := by
  induction l with
  | nil => exact ⟨[], rfl⟩
  | cons a rest ih =>
    obtain ⟨name, f⟩ := a
    cases hf : f prompt with
    | some t => exact ⟨rest.map Prod.fst, by simp [tryFallbacks, hf]⟩
    | none =>
      obtain ⟨tl, htl⟩ := ih
      exact ⟨tl, by simp [tryFallbacks, hf, ← htl]⟩

/-! ## Helper lemmas: provider resolution -/

theorem resolve_specific_name (m : LLMMgr) (p name : String) (llm : LLMFun)
    (hp : p = "google" ∨ p = "openai" ∨ p = "ollama")
    (h : resolve m p = some (name, llm)) : name = p := by
  obtain ⟨g, o, l⟩ := m
  rcases hp with rfl | rfl | rfl <;> cases g <;> cases o <;> cases l <;>
    simp [resolve, named] at h <;> exact h.1.symm

theorem configured_names_nodup (m : LLMMgr) :
    ((configuredProviders m).map Prod.fst).Nodup := by
  obtain ⟨g, o, l⟩ := m
  cases g <;> cases o <;> cases l <;> simp [configuredProviders, optToList]

theorem fallbacksFor_filter (m : LLMMgr) (p : String)
    (hp : p = "google" ∨ p = "openai" ∨ p = "ollama") :
    fallbacksFor m p = (configuredProviders m).filter (fun x => x.1 != p) := by
  obtain ⟨g, o, l⟩ := m
  rcases hp with rfl | rfl | rfl <;>
    cases g <;> cases o <;> cases l <;>
      simp [fallbacksFor, configuredProviders, optToList, List.filter]

theorem fallbacksFor_auto (m : LLMMgr) :
    fallbacksFor m "auto" = configuredProviders m := by
  simp [fallbacksFor, configuredProviders]

/-! ## Helper lemmas: stage functions preserve the improvement counter -/

theorem retrieveStage_count (env : AgentEnv) (s : AgentState) :
    (retrieveStage env s).improvement_count = s.improvement_count := by
  simp only [retrieveStage]
  split <;> rfl

theorem analyzeStage_count (env : AgentEnv) (s : AgentState) :
    (analyzeStage env s).improvement_count = s.improvement_count := by
  simp only [analyzeStage]
  split <;> rfl

theorem generateStage_count (env : AgentEnv) (s : AgentState) :
    (generateStage env s).improvement_count = s.improvement_count := by
  simp only [generateStage]
  split
  · rfl
  · split <;> rfl

theorem evaluateStage_count (env : AgentEnv) (s : AgentState) :
    (evaluateStage env s).improvement_count = s.improvement_count := by
  simp only [evaluateStage]
  split
  · rfl
  · split <;> rfl

theorem improveStage_count (env : AgentEnv) (s : AgentState) :
    (improveStage env s).improvement_count = s.improvement_count := by
  simp only [improveStage]
  split <;> rfl

theorem shouldImprove_count_le (thr : ℚ) (s : AgentState)
    (h : s.improvement_count ≤ 3) :
    ((shouldImprove thr s).2).improvement_count ≤ 3 := by
  simp only [shouldImprove]
  split
  · exact h
  · split
    · next hge _ =>
      show s.improvement_count + 1 ≤ 3
      omega
    · exact h

/-! ## Helper lemmas: stage functions keep confidence at most 0.95 -/

theorem retrieveStage_conf (env : AgentEnv) (s : AgentState) :
    (retrieveStage env s).confidence = s.confidence := by
  simp only [retrieveStage]
  split <;> rfl

theorem analyzeStage_conf (env : AgentEnv) (s : AgentState) :
    (analyzeStage env s).confidence = s.confidence := by
  simp only [analyzeStage]
  split <;> rfl

theorem generateStage_conf_le (env : AgentEnv) (s : AgentState)
    (h : s.confidence ≤ 0.95) : (generateStage env s).confidence ≤ 0.95 := by
  simp only [generateStage]
  split
  · exact h
  · split
    · show (0.8 : ℚ) ≤ 0.95
      norm_num
    · exact h

theorem evaluateStage_conf_le (env : AgentEnv) (s : AgentState)
    (h : s.confidence ≤ 0.95) : (evaluateStage env s).confidence ≤ 0.95 := by
  simp only [evaluateStage]
  split
  · exact h
  · split
    · dsimp only
      split
      · norm_num
      · split
        · norm_num
        · split <;> norm_num
    · show (0.5 : ℚ) ≤ 0.95
      norm_num

theorem improveStage_conf_le (env : AgentEnv) (s : AgentState)
    (h : s.confidence ≤ 0.95) : (improveStage env s).confidence ≤ 0.95 := by
  simp only [improveStage]
  split
  · exact min_le_left _ _
  · exact h

theorem shouldImprove_conf (thr : ℚ) (s : AgentState) :
    ((shouldImprove thr s).2).confidence = s.confidence := by
  simp only [shouldImprove]
  split
  · rfl
  · split <;> rfl

/-! ## Helper lemmas: workflow iteration -/

theorem runFrom_done (env : AgentEnv) (thr : ℚ) (n : Nat) (s : AgentState) :
    runFrom env thr n (Stage.done, s) = (Stage.done, s) := by
  cases n <;> rfl

theorem stepF_none_runFrom (env : AgentEnv) (thr : ℚ) (n : Nat)
    (c : Stage × AgentState) (h : stepF env thr c = none) :
    runFrom env thr n c = c := by
  cases n with
  | zero => rfl
  | succ k => simp [runFrom, h]

theorem runFrom_add (env : AgentEnv) (thr : ℚ) (a b : Nat) (c : Stage × AgentState) :
    runFrom env thr (a + b) c = runFrom env thr b (runFrom env thr a c) := by
  induction a generalizing c with
  | zero => simp [runFrom]
  | succ k ih =>
    have hab : k + 1 + b = (k + b) + 1 := by omega
    rw [hab]
    cases hs : stepF env thr c with
    | none =>
      rw [stepF_none_runFrom env thr (k + b + 1) c hs,
        stepF_none_runFrom env thr (k + 1) c hs,
        stepF_none_runFrom env thr b c hs]
    | some c2 =>
      show runFrom env thr (k + b + 1) c = _
      rw [show runFrom env thr (k + b + 1) c = runFrom env thr (k + b) c2 by
          simp [runFrom, hs],
        show runFrom env thr (k + 1) c = runFrom env thr k c2 by simp [runFrom, hs]]
      exact ih c2

theorem count_le_step (env : AgentEnv) (thr : ℚ) (c c2 : Stage × AgentState)
    (h : c.2.improvement_count ≤ 3) (hs : stepF env thr c = some c2) :
    c2.2.improvement_count ≤ 3 := by
  obtain ⟨st, s⟩ := c
  cases st <;> simp only [stepF] at hs
  · obtain rfl := Option.some.inj hs
    simpa [retrieveStage_count] using h
  · obtain rfl := Option.some.inj hs
    simpa [analyzeStage_count] using h
  · obtain rfl := Option.some.inj hs
    simpa [generateStage_count] using h
  · split at hs <;> obtain rfl := Option.some.inj hs <;>
      exact shouldImprove_count_le thr _ (by simpa [evaluateStage_count] using h)
  · obtain rfl := Option.some.inj hs
    simpa [improveStage_count] using h
  · cases hs

theorem count_le_runFrom (env : AgentEnv) (thr : ℚ) (n : Nat)
    (c : Stage × AgentState) (h : c.2.improvement_count ≤ 3) :
    ((runFrom env thr n c).2).improvement_count ≤ 3 := by
  induction n generalizing c with
  | zero => exact h
  | succ k ih =>
    cases hs : stepF env thr c with
    | none => simpa [runFrom, hs] using h
    | some c2 =>
      have : runFrom env thr (k + 1) c = runFrom env thr k c2 := by simp [runFrom, hs]
      rw [this]
      exact ih c2 (count_le_step env thr c c2 h hs)

theorem conf_le_step (env : AgentEnv) (thr : ℚ) (c c2 : Stage × AgentState)
    (h : c.2.confidence ≤ 0.95) (hs : stepF env thr c = some c2) :
    c2.2.confidence ≤ 0.95 := by
  obtain ⟨st, s⟩ := c
  cases st <;> simp only [stepF] at hs
  · obtain rfl := Option.some.inj hs
    simpa [retrieveStage_conf] using h
  · obtain rfl := Option.some.inj hs
    simpa [analyzeStage_conf] using h
  · obtain rfl := Option.some.inj hs
    exact generateStage_conf_le env s h
  · split at hs <;> obtain rfl := Option.some.inj hs <;>
      simpa [shouldImprove_conf] using evaluateStage_conf_le env s h
  · obtain rfl := Option.some.inj hs
    exact improveStage_conf_le env s h
  · cases hs

theorem conf_le_runFrom (env : AgentEnv) (thr : ℚ) (n : Nat)
    (c : Stage × AgentState) (h : c.2.confidence ≤ 0.95) :
    ((runFrom env thr n c).2).confidence ≤ 0.95 := by
  induction n generalizing c with
  | zero => exact h
  | succ k ih =>
    cases hs : stepF env thr c with
    | none => simpa [runFrom, hs] using h
    | some c2 =>
      have : runFrom env thr (k + 1) c = runFrom env thr k c2 := by simp [runFrom, hs]
      rw [this]
      exact ih c2 (conf_le_step env thr c c2 h hs)

/-! ## Helper lemmas: bounded termination of the evaluate-improve loop -/

theorem shouldImprove_route_end (thr : ℚ) (s : AgentState)
    (h : 3 ≤ s.improvement_count) : shouldImprove thr s = ("end", s) := by
  unfold shouldImprove
  have : s.improvement_count ≥ 3 := h
  simp [this]

theorem shouldImprove_improve_count (thr : ℚ) (s : AgentState)
    (h : (shouldImprove thr s).1 = "improve") :
    (shouldImprove thr s).2.improvement_count = s.improvement_count + 1 := by
  simp only [shouldImprove] at h ⊢
  split at h
  · simp at h
  · split at h
    · next hge hlt =>
      rw [if_neg hge, if_pos hlt]
    · simp at h

theorem evalLoop_done (env : AgentEnv) (thr : ℚ) :
    ∀ (n : Nat) (s : AgentState), 3 ≤ s.improvement_count + n →
      (runFrom env thr (2 * n + 2) (Stage.evaluate, s)).1 = Stage.done := by
  intro n
  induction n with
  | zero =>
    intro s h
    have h3 : 3 ≤ (evaluateStage env s).improvement_count := by
      rw [evaluateStage_count]; omega
    show (runFrom env thr 2 (Stage.evaluate, s)).1 = Stage.done
    have hstep : stepF env thr (Stage.evaluate, s) =
        some (Stage.done, evaluateStage env s) := by
      simp [stepF, shouldImprove_route_end thr _ h3]
    have : runFrom env thr 2 (Stage.evaluate, s) =
        runFrom env thr 1 (Stage.done, evaluateStage env s) := by
      simp [runFrom, hstep]
    rw [this, runFrom_done]
  | succ k ih =>
    intro s h
    have heq : 2 * (k + 1) + 2 = (2 * k + 2) + 1 + 1 := by omega
    rw [heq]
    by_cases hr : (shouldImprove thr (evaluateStage env s)).1 = "improve"
    · have hstep : stepF env thr (Stage.evaluate, s) =
          some (Stage.improve, (shouldImprove thr (evaluateStage env s)).2) := by
        simp [stepF, hr]
      have h1 : runFrom env thr ((2 * k + 2) + 1 + 1) (Stage.evaluate, s) =
          runFrom env thr ((2 * k + 2) + 1)
            (Stage.improve, (shouldImprove thr (evaluateStage env s)).2) := by
        simp [runFrom, hstep]
      have hstep2 : stepF env thr
          (Stage.improve, (shouldImprove thr (evaluateStage env s)).2) =
          some (Stage.evaluate,
            improveStage env (shouldImprove thr (evaluateStage env s)).2) := by
        simp [stepF]
      have h2 : runFrom env thr ((2 * k + 2) + 1)
            (Stage.improve, (shouldImprove thr (evaluateStage env s)).2) =
          runFrom env thr (2 * k + 2)
            (Stage.evaluate,
              improveStage env (shouldImprove thr (evaluateStage env s)).2) := by
        simp [runFrom, hstep2]
      rw [h1, h2]
      apply ih
      rw [improveStage_count, shouldImprove_improve_count thr _ hr, evaluateStage_count]
      omega
    · have hstep : stepF env thr (Stage.evaluate, s) =
          some (Stage.done, (shouldImprove thr (evaluateStage env s)).2) := by
        simp [stepF, hr]
      have h1 : runFrom env thr ((2 * k + 2) + 1 + 1) (Stage.evaluate, s) =
          runFrom env thr ((2 * k + 2) + 1)
            (Stage.done, (shouldImprove thr (evaluateStage env s)).2) := by
        simp [runFrom, hstep]
      rw [h1, runFrom_done]

theorem runFrom_three (env : AgentEnv) (thr : ℚ) (q : String) :
    runFrom env thr 3 (Stage.retrieve, initState q) =
      (Stage.evaluate,
        generateStage env (analyzeStage env (retrieveStage env (initState q)))) := by
  simp [runFrom, stepF]

theorem workflow_reaches_done (env : AgentEnv) (thr : ℚ) (q : String) :
    (runFrom env thr 11 (Stage.retrieve, initState q)).1 = Stage.done := by
  have h11 : (11 : Nat) = 3 + 8 := by omega
  rw [h11, runFrom_add, runFrom_three]
  have h8 : (8 : Nat) = 2 * 3 + 2 := by omega
  rw [h8]
  apply evalLoop_done
  rw [generateStage_count, analyzeStage_count, retrieveStage_count]
  simp [initState]

/-! ## Claim C10 -/

/-- C10: the auto selector resolves to the first available provider in the
fixed priority order google, openai, ollama; a specific provider that is
not configured resolves to no provider; and generation with an unresolved
provider fails immediately with the No LLM available error, invoking no
backend. -/
theorem c10_auto_resolution (m : LLMMgr) (p prompt : String) :
    resolve m "auto" = autoResolveSpec m ∧
    (m.google = none → resolve m "google" = none) ∧
    (m.openai = none → resolve m "openai" = none) ∧
    (m.ollama = none → resolve m "ollama" = none) ∧
    (resolve m p = none →
      generateResponse m prompt p = { success := false, error := "No LLM available" } ∧
      attemptsList m prompt p = []) := by
  refine ⟨?_, ?_, ?_, ?_, ?_⟩
  · obtain ⟨g, o, l⟩ := m
    cases g <;> cases o <;> cases l <;>
      simp [resolve, autoResolveSpec, currentLLMNamed, named]
  · intro h
    simp [resolve, h]
  · intro h
    simp [resolve, h]
  · intro h
    simp [resolve, h]
  · intro h
    unfold generateResponse attemptsList generateResponseT
    rw [h]
    exact ⟨rfl, rfl⟩

/-- C10 witness: with no provider configured, requesting openai resolves
to no provider and the generate call fails immediately with no backend
invoked. -/
theorem c10_auto_resolution_witness :
    resolve mgrNone "openai" = none ∧
    generateResponse mgrNone "hi" "openai" =
      { success := false, error := "No LLM available" } ∧
    attemptsList mgrNone "hi" "openai" = [] := by
  refine ⟨(c10_auto_resolution mgrNone "openai" "hi").2.2.1 rfl, ?_, ?_⟩
  · exact ((c10_auto_resolution mgrNone "openai" "hi").2.2.2.2
      ((c10_auto_resolution mgrNone "openai" "hi").2.2.1 rfl)).1
  · exact ((c10_auto_resolution mgrNone "openai" "hi").2.2.2.2
      ((c10_auto_resolution mgrNone "openai" "hi").2.2.1 rfl)).2

/-! ## Claim C4 -/

/-- C4: with a resolved primary provider, a primary success is returned
immediately and no other provider is invoked; after a primary failure the
first succeeding fallback is returned with provider tag fallback-name; if
every attempt fails the aggregate All LLM providers failed result is
returned, and that is the only way a resolved generate call reports
failure. -/
theorem c4_fallback_semantics (m : LLMMgr) (prompt p name : String) (llm : LLMFun)
    (hres : resolve m p = some (name, llm)) :
    (∀ t, llm prompt = some t →
      generateResponse m prompt p =
        { success := true, response := t,
          provider := if p = "auto" then "auto-selected" else p } ∧
      attemptsList m prompt p = [name]) ∧
    (llm prompt = none →
      ∀ pre post nf t, fallbacksFor m p = pre ++ nf :: post →
        (∀ x ∈ pre, x.2 prompt = none) → nf.2 prompt = some t →
        generateResponse m prompt p =
          { success := true, response := t, provider := "fallback-" ++ nf.1 }) ∧
    (llm prompt = none →
      (∀ x ∈ fallbacksFor m p, x.2 prompt = none) →
      generateResponse m prompt p =
        { success := false, error := "All LLM providers failed" }) ∧
    ((generateResponse m prompt p).success = false →
      llm prompt = none ∧ (∀ x ∈ fallbacksFor m p, x.2 prompt = none) ∧
      (generateResponse m prompt p).error = "All LLM providers failed") := by
  refine ⟨?_, ?_, ?_, ?_⟩
  · intro t ht
    unfold generateResponse attemptsList generateResponseT
    simp only [hres, ht]
    constructor <;> trivial
  · intro hfail pre post nf t hsplit hpre hnf
    obtain ⟨n2, f2⟩ := nf
    unfold generateResponse generateResponseT
    simp only [hres, hfail]
    rw [hsplit]
    exact tryFallbacks_first_success prompt pre post n2 f2 t hpre hnf
  · intro hfail hall
    unfold generateResponse generateResponseT
    simp only [hres, hfail]
    rw [tryFallbacks_all_fail prompt _ hall]
  · intro hf
    cases hllm : llm prompt with
    | some t =>
      exfalso
      unfold generateResponse generateResponseT at hf
      simp [hres, hllm] at hf
    | none =>
      have hf2 : ((tryFallbacks prompt (fallbacksFor m p)).1).success = false := by
        unfold generateResponse generateResponseT at hf
        simp only [hres, hllm] at hf
        exact hf
      have hall := tryFallbacks_fail_forall prompt (fallbacksFor m p) hf2
      refine ⟨rfl, hall, ?_⟩
      unfold generateResponse generateResponseT
      simp only [hres, hllm]
      rw [tryFallbacks_all_fail prompt _ hall]

/-- C4 witness: google resolved but failing, openai succeeding as the
first fallback; the call returns success with the fallback-openai tag. -/
theorem c4_fallback_semantics_witness :
    generateResponse mgrMixed "hi" "google" =
      { success := true, response := "ok", provider := "fallback-openai" } :=
  (c4_fallback_semantics mgrMixed "hi" "google" "google" alwaysFail rfl).2.1
    rfl [] [] ("openai", alwaysOk) "ok" rfl (by intro x hx; cases hx) rfl

/-! ## Claim C2 -/

/-- C2 counterexample: with only google configured and failing, a generate
call with the auto selector invokes google as the primary attempt and then
invokes google again as a fallback, so a provider is invoked twice within
one call and the fallback set is not restricted to the other providers. -/
theorem c2_counterexample :
    attemptsList mgrOnlyGoogle "hi" "auto" = ["google", "google"] ∧
    ¬ (attemptsList mgrOnlyGoogle "hi" "auto").Nodup := by
  decide

/-- C2 amended: for a specific provider selection (google, openai or
ollama) the fallback list is exactly the other configured providers in the
fixed priority order and no provider is invoked twice; for the auto
selector the fallback list is all configured providers, including the one
the auto selector just tried, which can therefore be invoked twice. -/
theorem c2_fallback_order_amended (m : LLMMgr) (prompt p : String) :
    (p = "google" ∨ p = "openai" ∨ p = "ollama" →
      fallbacksFor m p = (configuredProviders m).filter (fun x => x.1 != p) ∧
      (attemptsList m prompt p).Nodup) ∧
    fallbacksFor m "auto" = configuredProviders m := by
  refine ⟨?_, fallbacksFor_auto m⟩
  intro hp
  refine ⟨fallbacksFor_filter m p hp, ?_⟩
  cases hres : resolve m p with
  | none =>
    unfold attemptsList generateResponseT
    rw [hres]
    exact List.nodup_nil
  | some nl =>
    obtain ⟨name, llm⟩ := nl
    have hname : name = p := resolve_specific_name m p name llm hp hres
    cases hllm : llm prompt with
    | some t =>
      unfold attemptsList generateResponseT
      simp only [hres, hllm]
      exact List.nodup_singleton _
    | none =>
      unfold attemptsList generateResponseT
      simp only [hres, hllm]
      rw [hname]
      have hpre := tryFallbacks_trace_isPrefix prompt (fallbacksFor m p)
      have hsub : (tryFallbacks prompt (fallbacksFor m p)).2.Sublist
          ((fallbacksFor m p).map Prod.fst) := hpre.sublist
      have hsub2 : ((fallbacksFor m p).map Prod.fst).Sublist
          ((configuredProviders m).map Prod.fst) := by
        rw [fallbacksFor_filter m p hp]
        exact ((configuredProviders m).filter_sublist).map Prod.fst
      have hnd : (tryFallbacks prompt (fallbacksFor m p)).2.Nodup :=
        (configured_names_nodup m).sublist (hsub.trans hsub2)
      have hnotin : p ∉ (tryFallbacks prompt (fallbacksFor m p)).2 := by
        intro hmem
        have hmem2 : p ∈ (fallbacksFor m p).map Prod.fst := hsub.subset hmem
        rw [fallbacksFor_filter m p hp] at hmem2
        obtain ⟨x, hxmem, hxeq⟩ := List.mem_map.mp hmem2
        have hx := (List.mem_filter.mp hxmem).2
        rw [hxeq] at hx
        simp at hx
      exact List.nodup_cons.mpr ⟨hnotin, hnd⟩

/-- C2 amended witness: concrete instance at the google selection with
google and openai configured. -/
theorem c2_fallback_order_amended_witness :
    fallbacksFor mgrMixed "google" =
      (configuredProviders mgrMixed).filter (fun x => x.1 != "google") ∧
    (attemptsList mgrMixed "hi" "google").Nodup :=
  (c2_fallback_order_amended mgrMixed "hi" "google").1 (Or.inl rfl)

/-! ## Claim C5 -/

/-- C5: a query issued while the coordinator is not initialized returns
the structured System not initialized failure with success false, and the
result does not depend on the workflow collaborator, which is invoked zero
times. -/
theorem c5_not_initialized (agent agent2 : String → QueryResult) (q : String)
    (isInit : Bool) (h : isInit = false) :
    smProcessQuery isInit agent q =
      ({ success := false, error := some "System not initialized",
         message := some "Please initialize the system first" }, 0) ∧
    smProcessQuery isInit agent q = smProcessQuery isInit agent2 q := by
  subst h
  exact ⟨rfl, rfl⟩

/-- C5 witness: concrete uninitialized coordinator with two different
agent collaborators. -/
theorem c5_not_initialized_witness :
    smProcessQuery false (fun _ => { success := true }) "q" =
      ({ success := false, error := some "System not initialized",
         message := some "Please initialize the system first" }, 0) :=
  (c5_not_initialized (fun _ => { success := true })
    (fun _ => { success := false }) "q" false rfl).1

/-! ## Claim C8 -/

/-- C8: for every query, threshold and every outcome of the external
retrieval and generation calls, the workflow run from the retrieve entry
point reaches the END node within 11 transitions, the improvement counter
at that point is at most 3 bounded evaluate-improve cycles, and further
fuel does not change the outcome, so a result record is always returned. -/
theorem c8_workflow_terminates (env : AgentEnv) (thr : ℚ) (q : String) (k : Nat) :
    (runFrom env thr 11 (Stage.retrieve, initState q)).1 = Stage.done ∧
    ((runFrom env thr 11 (Stage.retrieve, initState q)).2).improvement_count ≤ 3 ∧
    runFrom env thr (11 + k) (Stage.retrieve, initState q) =
      runFrom env thr 11 (Stage.retrieve, initState q) := by
  refine ⟨workflow_reaches_done env thr q, ?_, ?_⟩
  · exact count_le_runFrom env thr 11 _ (by simp [initState])
  · rw [runFrom_add]
    have hd := workflow_reaches_done env thr q
    rcases hc : runFrom env thr 11 (Stage.retrieve, initState q) with ⟨st, s⟩
    rw [hc] at hd
    simp only at hd
    subst hd
    exact runFrom_done env thr k s

/-! ## Claim C3 -/

/-- C3: the branch decision increments improvement_count exactly when it
routes to improve and leaves the state untouched otherwise; the improve
stage never changes the counter; and along every workflow run the counter
never exceeds 3. -/
theorem c3_improvement_counter (env : AgentEnv) (thr : ℚ) (s : AgentState)
    (q : String) (n : Nat) :
    ((shouldImprove thr s).1 = "improve" →
      (shouldImprove thr s).2 =
        { s with improvement_count := s.improvement_count + 1 }) ∧
    ((shouldImprove thr s).1 ≠ "improve" → (shouldImprove thr s).2 = s) ∧
    (improveStage env s).improvement_count = s.improvement_count ∧
    ((runFrom env thr n (Stage.retrieve, initState q)).2).improvement_count ≤ 3 := by
  refine ⟨?_, ?_, improveStage_count env s, ?_⟩
  · intro h
    simp only [shouldImprove] at h ⊢
    split at h
    · simp at h
    · split at h
      · next hge hlt => rw [if_neg hge, if_pos hlt]
      · simp at h
  · intro h
    simp only [shouldImprove] at h ⊢
    split at h
    · next hge => rw [if_pos hge]
    · split at h
      · next => simp at h
      · next hge hlt => rw [if_neg hge, if_neg hlt]
  · exact count_le_runFrom env thr n _ (by simp [initState])

/-- C3 witness: the branch routes to improve at counter 0 and confidence 0
below threshold 1 and increments the counter to 1; a concrete bounded run
keeps the counter at most 3. -/
theorem c3_improvement_counter_witness :
    (shouldImprove 1 (initState "q")).2 =
      { initState "q" with improvement_count := 1 } ∧
    ((runFrom envNoProviders 1 11 (Stage.retrieve, initState "q")).2).improvement_count ≤ 3 := by
  constructor
  · refine (c3_improvement_counter envNoProviders 1 (initState "q") "q" 11).1 ?_
    norm_num [shouldImprove, initState]
  · exact (c3_improvement_counter envNoProviders 1 (initState "q") "q" 11).2.2.2

/-! ## Claim C7 -/

/-- C7: the improve stage on generation success replaces the response and
sets confidence to min 0.95 (confidence + 0.1); on generation failure it
changes nothing but the step marker, leaving response and confidence
exactly unchanged; it never decreases a confidence that is at most 0.95,
and every state reachable in a workflow run has confidence at most
0.95. -/
theorem c7_improve_stage (env : AgentEnv) (thr : ℚ) (q : String)
    (n : Nat) (s : AgentState) :
    ((generateResponse env.mgr (improvementPrompt s) "auto").success = true →
      improveStage env s =
        { s with step := "improve",
                 response := (generateResponse env.mgr (improvementPrompt s) "auto").response,
                 confidence := min 0.95 (s.confidence + 0.1) }) ∧
    ((generateResponse env.mgr (improvementPrompt s) "auto").success = false →
      improveStage env s = { s with step := "improve" }) ∧
    (s.confidence ≤ 0.95 → s.confidence ≤ (improveStage env s).confidence) ∧
    ((runFrom env thr n (Stage.retrieve, initState q)).2).confidence ≤ 0.95 := by
  refine ⟨?_, ?_, ?_, ?_⟩
  · intro h
    simp only [improveStage]
    rw [show improvementPrompt { s with step := "improve" } = improvementPrompt s from rfl]
    simp [h]
  · intro h
    simp only [improveStage]
    rw [show improvementPrompt { s with step := "improve" } = improvementPrompt s from rfl]
    simp [h]
  · intro hle
    simp only [improveStage]
    split
    · dsimp only
      refine le_min hle ?_
      linarith
    · exact le_refl _
  · refine conf_le_runFrom env thr n _ ?_
    show (initState q).confidence ≤ 0.95
    norm_num [initState]

/-- C7 witness: with a succeeding provider the improve stage rewrites the
response and bumps confidence; the non-decrease holds at the initial
state. -/
theorem c7_improve_stage_witness :
    improveStage envOk (initState "q") =
      { initState "q" with
        step := "improve",
        response := "ok",
        confidence := min 0.95 ((initState "q").confidence + 0.1) } ∧
    (initState "q").confidence ≤ (improveStage envOk (initState "q")).confidence := by
  constructor
  · have h := (c7_improve_stage envOk 1 "q" 0 (initState "q")).1 rfl
    rw [h]
    rfl
  · exact (c7_improve_stage envOk 1 "q" 0 (initState "q")).2.2.1 (by norm_num [initState])

/-! ## Claim C6 -/

/-- C6: on an empty response the evaluate stage only sets the error and
leaves confidence unchanged; on a successful evaluation call the
confidence is exactly the first-match-wins keyword policy applied to the
returned assessment and the assessment is recorded; on a failed
evaluation call the confidence is forced to 0.5 regardless of its
previous value. -/
theorem c6_evaluate_stage (env : AgentEnv) (s : AgentState) :
    (s.response = "" →
      evaluateStage env s =
        { s with step := "evaluate", error := "No response to evaluate" }) ∧
    (s.response ≠ "" →
      (evaluateResponseQuality env.mgr s.query s.response s.context).success = true →
      (evaluateStage env s).confidence =
        keywordConfidencePolicy
          (evaluateResponseQuality env.mgr s.query s.response s.context).evaluation ∧
      (evaluateStage env s).evaluation.quality_assessment =
        some (evaluateResponseQuality env.mgr s.query s.response s.context).evaluation) ∧
    (s.response ≠ "" →
      (evaluateResponseQuality env.mgr s.query s.response s.context).success = false →
      (evaluateStage env s).confidence = 0.5) := by
  refine ⟨?_, ?_, ?_⟩
  · intro h
    simp only [evaluateStage]
    simp [h]
  · intro h hs
    simp only [evaluateStage]
    simp [h, hs, keywordConfidencePolicy]
  · intro h hs
    simp only [evaluateStage]
    simp [h, hs]

/-- C6 witness: a provider answering the text good yields a successful
evaluation and confidence 0.8 through the keyword policy. -/
theorem c6_evaluate_stage_witness :
    (evaluateStage envGood { (initState "x") with response := "r" }).confidence = 0.8 := by
  have h := ((c6_evaluate_stage envGood
    { (initState "x") with response := "r" }).2.1 (by decide) rfl).1
  rw [h]
  rfl

/-! ## Claim C9 -/

/-- C9 counterexample: with an empty corpus and no provider the fourth
workflow transition enters the improve stage while the response is still
empty, so the evaluate-improve transition is taken with an empty
response. -/
theorem c9_counterexample :
    (runFrom envNoProviders 0.7 4 (Stage.retrieve, initState "q")).1 = Stage.improve ∧
    (runFrom envNoProviders 0.7 4 (Stage.retrieve, initState "q")).2.response = "" := by
  have h07 : (0:ℚ) < 0.7 := by norm_num
  constructor <;>
    simp [runFrom, stepF, retrieveStage, analyzeStage, generateStage, evaluateStage,
      shouldImprove, initState, envNoProviders, mgrNone, generateResponse, generateResponseT,
      resolve, currentLLMNamed, named, generateMedicalResponse, evaluateResponseQuality,
      analysisPrompt, medicalPrompt, h07]

/-- C9 amended: the improve stage does not require a prior response: the
evaluate-improve transition is taken exactly when improvement_count is
below 3 and confidence is below the threshold, independently of the
response, so improve can run with an empty response whenever generation
produced none. -/
theorem c9_branch_amended (thr : ℚ) (s : AgentState) :
    (shouldImprove thr s).1 = "improve" ↔
      s.improvement_count < 3 ∧ s.confidence < thr := by
  constructor
  · intro h
    simp only [shouldImprove] at h
    split at h
    · simp at h
    · split at h
      · next hge hlt => exact ⟨by omega, hlt⟩
      · simp at h
  · rintro ⟨h3, hlt⟩
    simp only [shouldImprove]
    rw [if_neg (by omega), if_pos hlt]

/-- C9 amended witness: the branch routes to improve at the initial state
with threshold 1 even though the response is empty. -/
theorem c9_branch_amended_witness :
    (shouldImprove 1 (initState "q")).1 = "improve" :=
  (c9_branch_amended 1 (initState "q")).mpr
    ⟨by norm_num [initState], by norm_num [initState]⟩

/-! ## Claim C1 -/

/-- C1 counterexample: retrieval returns zero chunks, yet process_query
reports success true (with response None), contradicting the claim that
success is false in that scenario. -/
theorem c1_counterexample :
    envNoProviders.retrieve "q" = [] ∧
    (ragProcessQuery envNoProviders 0.7 "q").success = true ∧
    (ragProcessQuery envNoProviders 0.7 "q").response = none := by
  refine ⟨rfl, rfl, ?_⟩
  have h07 : (0:ℚ) < 0.7 := by norm_num
  simp [ragProcessQuery, runFrom, stepF, retrieveStage, analyzeStage, generateStage,
    evaluateStage, improveStage, shouldImprove, initState, envNoProviders, mgrNone,
    generateResponse, generateResponseT, resolve, currentLLMNamed, named,
    generateMedicalResponse, evaluateResponseQuality, analysisPrompt, medicalPrompt,
    improvementPrompt, h07]

/-- C1 amended: the agent-level process_query reports success true on
every workflow completion; when retrieval returns zero chunks and every
generation attempt fails, the response is None and the error field is set,
but success remains true.  Success false arises only from the
not-initialized check of the coordinator or the outer catch-all for
unexpected faults. -/
theorem c1_success_semantics_amended (env : AgentEnv) (thr : ℚ) (q : String) :
    (ragProcessQuery env thr q).success = true ∧
    (env.retrieve q = [] →
      (∀ p, (generateResponse env.mgr p "auto").success = false) →
      (ragProcessQuery env thr q).response = none ∧
      (ragProcessQuery env thr q).error = some "No response to evaluate") := by
  constructor
  · rfl
  · intro hret hfail
    by_cases hthr : (0:ℚ) < thr
    · constructor <;>
        simp [ragProcessQuery, runFrom, stepF, retrieveStage, analyzeStage, generateStage,
          evaluateStage, improveStage, shouldImprove, initState, hret, hfail, hthr,
          generateMedicalResponse, evaluateResponseQuality]
    · constructor <;>
        simp [ragProcessQuery, runFrom, stepF, retrieveStage, analyzeStage, generateStage,
          evaluateStage, improveStage, shouldImprove, initState, hret, hfail, hthr,
          generateMedicalResponse, evaluateResponseQuality]

/-- C1 amended witness: concrete empty corpus with no provider. -/
theorem c1_success_semantics_amended_witness :
    (ragProcessQuery envNoProviders 0.7 "q").response = none ∧
    (ragProcessQuery envNoProviders 0.7 "q").error = some "No response to evaluate" :=
  (c1_success_semantics_amended envNoProviders 0.7 "q").2 rfl (fun _ => rfl)

end MedRAG
